import Mathlib

/-!
Shallow embedding of `src/app.py` (volivero/inventario), a Streamlit app
storing inventory rows in a Google Sheets worksheet with optional image
upload to a Google Drive folder.

External services (Sheets, Drive) are modelled as explicit state:
a spreadsheet is an association list from worksheet names to row lists,
a Drive store is a list of created files with a deterministic id supply.
Environment-provided nondeterminism (the generated UUID, the current UTC
time) is passed in as parameters.
-/

namespace Inventario

/-- A spreadsheet cell as surfaced by the `gspread` client: either a text
cell or a numeric cell (`get_all_records` returns numbers for numeric
cells, strings otherwise; `append_row` preserves the Python value type). -/
inductive Cell where
  | str (v : String)
  | num (v : Int)
deriving DecidableEq, Repr

abbrev Row := List Cell

/-- Python `str.strip()`: drop leading and trailing whitespace. (Lean's
`String.trim` is not used because its `Substring` auxiliaries do not
reduce in the kernel; this structural version does.) -/
def pyStripList (cs : List Char) : List Char :=
  ((cs.dropWhile Char.isWhitespace).reverse.dropWhile Char.isWhitespace).reverse

def pyStrip (s : String) : String :=
  String.mk (pyStripList s.toList)

/-- The string a cell displays as (`row_values` returns display strings). -/
def cellStr : Cell → String
  | Cell.str v => v
  | Cell.num v => toString v

/-- `gspread` omits trailing empty cells from `row_values`. -/
def dropTrailingEmpty (l : List String) : List String :=
  (l.reverse.dropWhile (fun s => s = "")).reverse

/-- The fixed header of app.py line 78:
`["id","timestamp","cantidad","descripcion","observacion","imagen_url","drive_file_id"]`. -/
def expectedHeader : List String :=
  ["id", "timestamp", "cantidad", "descripcion", "observacion", "imagen_url", "drive_file_id"]

def expectedHeaderRow : Row := expectedHeader.map Cell.str

/-- A spreadsheet document: worksheets keyed by name (in tab order). -/
abbrev Spreadsheet := List (String × List Row)

def lookupWs (sh : Spreadsheet) (n : String) : Option (List Row) :=
  (sh.find? (fun p => p.1 = n)).map (fun p => p.2)

def setWs (sh : Spreadsheet) (n : String) (rows : List Row) : Spreadsheet :=
  sh.map (fun p => if p.1 = n then (n, rows) else p)

def wsRows (sh : Spreadsheet) (n : String) : List Row :=
  (lookupWs sh n).getD []

/-- `ws.row_values(1)`: display strings of row 1, trailing empties omitted. -/
def wsHeaders (rows : List Row) : List String :=
  dropTrailingEmpty ((rows.headD []).map cellStr)

/-- `ws.update("A1:G1", [expected])`: overwrite cells A1..G1 of row 1,
leaving any cells from column H on untouched. -/
def updateA1G1 (rows : List Row) : List Row :=
  match rows with
  | [] => [expectedHeaderRow]
  | r :: rest => (expectedHeaderRow ++ r.drop 7) :: rest

/-- app.py `open_or_create_worksheet` (lines 69-81): look the worksheet up
by name; if absent, add it and append the header row; then compare
`row_values(1)` against the expected header and rewrite A1:G1 on mismatch. -/
def open_or_create_worksheet (sh : Spreadsheet) (wsName : String) : Spreadsheet :=
  let sh1 :=
    match lookupWs sh wsName with
    | some _ => sh
    | none => sh ++ [(wsName, [] ++ [expectedHeaderRow])]
  let headers := wsHeaders (wsRows sh1 wsName)
  if headers = expectedHeader then sh1
  else setWs sh1 wsName (updateA1G1 (wsRows sh1 wsName))

/-! Numeric coercion of the `cantidad` column on read (app.py line 92):
`pd.to_numeric(df["cantidad"], errors="coerce").fillna(0).astype(int)`. -/

def digitsVal (l : List Char) : Nat :=
  l.foldl (fun a c => a * 10 + (c.toNat - '0'.toNat)) 0

/-- Model of `pd.to_numeric(..., errors="coerce")` on a text cell: an
optional sign, then decimal digits with an optional fractional part;
surrounding whitespace is ignored; anything else coerces to NaN (`none`). -/
def parseDecimal (s : String) : Option ℚ :=
  let cs := pyStripList s.toList
  let signed : Bool × List Char :=
    match cs with
    | '-' :: rest => (true, rest)
    | '+' :: rest => (false, rest)
    | _ => (false, cs)
  let intDigits := signed.2.takeWhile Char.isDigit
  let rest := signed.2.dropWhile Char.isDigit
  let mag : Option ℚ :=
    match rest with
    | [] =>
      if intDigits.isEmpty then none
      else some (digitsVal intDigits : ℚ)
    | '.' :: fracPart =>
      if fracPart.all Char.isDigit ∧ ¬(intDigits.isEmpty ∧ fracPart.isEmpty) then
        some ((digitsVal intDigits : ℚ) + (digitsVal fracPart : ℚ) / 10 ^ fracPart.length)
      else none
    | _ => none
  mag.map (fun q => if signed.1 then -q else q)

/-- `pd.to_numeric(..., errors="coerce")` on a cell: numeric cells pass
through, text cells are parsed, failures become NaN (`none`). -/
def to_numeric (c : Cell) : Option ℚ :=
  match c with
  | Cell.num v => some (v : ℚ)
  | Cell.str v => parseDecimal v

/-- `.astype(int)` on a float value: truncation toward zero. -/
def astypeInt (q : ℚ) : Int :=
  Int.tdiv q.num (q.den : Int)

/-- The composed read coercion of the `cantidad` column:
`pd.to_numeric(errors="coerce").fillna(0).astype(int)`. -/
def coerceCantidad (c : Cell) : Int :=
  astypeInt ((to_numeric c).getD 0)

/-! Reading the inventory as a data frame (app.py `read_inventory_df`,
lines 83-93), and appending a row (`append_row_to_sheet`, lines 95-108). -/

/-- One row of the data frame produced by `read_inventory_df`, keyed by
the fixed header (which `open_or_create_worksheet` has ensured).
`cantidad` is already coerced to an integer. -/
structure InvRecord where
  id : String
  timestamp : String
  cantidad : Int
  descripcion : String
  observacion : String
  imagen_url : String
  drive_file_id : String
deriving DecidableEq, Repr

/-- `get_all_records` pads a short row with empty cells. -/
def cellAt (r : Row) (i : Nat) : Cell :=
  (r.get? i).getD (Cell.str "")

/-- One record of `get_all_records`, with the `cantidad` column coercion
of app.py line 92 applied. -/
def toRecord (r : Row) : InvRecord :=
  { id := cellStr (cellAt r 0)
    timestamp := cellStr (cellAt r 1)
    cantidad := coerceCantidad (cellAt r 2)
    descripcion := cellStr (cellAt r 3)
    observacion := cellStr (cellAt r 4)
    imagen_url := cellStr (cellAt r 5)
    drive_file_id := cellStr (cellAt r 6) }

/-- app.py `read_inventory_df` minus the cache (the `st.cache_data` layer
is modelled separately): open the worksheet, take all rows below the
header as records, coerce `cantidad`. Returns the possibly-repaired
spreadsheet together with the data frame. -/
def read_inventory_df (sh : Spreadsheet) (wsName : String) :
    Spreadsheet × List InvRecord :=
  let sh1 := open_or_create_worksheet sh wsName
  (sh1, ((wsRows sh1 wsName).drop 1).map toRecord)

/-- The row dict built by the submission handler (app.py lines 235-243);
`append_row_to_sheet` reads exactly these seven keys. -/
structure RowDict where
  id : String
  timestamp : String
  cantidad : Int
  descripcion : String
  observacion : String
  imagen_url : String
  drive_file_id : String
deriving DecidableEq, Repr

/-- The `values` list of app.py lines 97-105, in fixed column order. -/
def rowToValues (row : RowDict) : Row :=
  [Cell.str row.id, Cell.str row.timestamp, Cell.num row.cantidad,
   Cell.str row.descripcion, Cell.str row.observacion,
   Cell.str row.imagen_url, Cell.str row.drive_file_id]

/-- app.py `append_row_to_sheet` (lines 95-108): open the worksheet and
append the values row at the end. -/
def append_row_to_sheet (sh : Spreadsheet) (wsName : String) (row : RowDict) :
    Spreadsheet :=
  let sh1 := open_or_create_worksheet sh wsName
  setWs sh1 wsName (wsRows sh1 wsName ++ [rowToValues row])

/-! Google Drive model and `upload_image_to_drive` (app.py lines 115-145). -/

/-- A file created in the Drive store. -/
structure DriveFile where
  id : String
  name : String
  parent : String
  mimeType : String
  content : String
  publicRead : Bool
deriving DecidableEq, Repr

/-- The Drive store: created files plus the service's id supply. -/
structure DriveState where
  files : List DriveFile
  nextId : Nat
deriving DecidableEq, Repr

/-- The identifier the service assigns to the next created file. -/
def freshFileId (d : DriveState) : String :=
  "file" ++ toString d.nextId

/-- `drive.files().create(...)`: one new file in the given folder. -/
def driveCreate (d : DriveState) (name parent mimeType content : String) :
    DriveState :=
  { files := d.files ++ [{ id := freshFileId d, name := name, parent := parent,
                           mimeType := mimeType, content := content,
                           publicRead := false }]
    nextId := d.nextId + 1 }

/-- `drive.permissions().create(fileId, {role: reader, type: anyone})`. -/
def driveGrantAnyoneReader (d : DriveState) (fileId : String) : DriveState :=
  { d with files := d.files.map fun f =>
      if f.id = fileId then { f with publicRead := true } else f }

/-- Python truthiness chain `a or b` on optional/empty strings. -/
def pyOrOpt (a b : Option String) : Option String :=
  match a with
  | some s => if s = "" then b else some s
  | none => b

def pyOrStr (a : Option String) (b : String) : String :=
  match a with
  | some s => if s = "" then b else s
  | none => b

/-- Model of `mimetypes.guess_type` (standard library) restricted to the
image types this app accepts plus a default of no guess. -/
def guess_type (name : String) : Option String :=
  if name.endsWith ".jpg" ∨ name.endsWith ".jpeg" then some "image/jpeg"
  else if name.endsWith ".png" then some "image/png"
  else none

/-- app.py `upload_image_to_drive` (lines 115-145). Raising is modelled as
an `Except.error` result paired with the unchanged Drive store; a success
returns `(public_view_url, file_id)` and the updated store. -/
def upload_image_to_drive (d : DriveState) (file_obj : String)
    (filename : String) (folder_id : String) (mime_type : Option String) :
    DriveState × Except String (String × String) :=
  if folder_id = "" then
    (d, Except.error "No hay DRIVE_FOLDER_ID configurado en secrets.toml")
  else
    let safe_name := (filename.replace "/" "_").replace "\\" "_"
    let mt := pyOrStr (pyOrOpt mime_type (guess_type safe_name))
      "application/octet-stream"
    let file_id := freshFileId d
    let d1 := driveCreate d safe_name folder_id mt file_obj
    let d2 := driveGrantAnyoneReader d1 file_id
    let public_url := "https://drive.google.com/uc?export=view&id=" ++ file_id
    (d2, Except.ok (public_url, file_id))

/-! The submission handler (app.py lines 211-248) and the cached read. -/

/-- A UTC instant, as far as the formatting code observes it. -/
structure UTCTime where
  year : Nat
  month : Nat
  day : Nat
  hour : Nat
  minute : Nat
  second : Nat
deriving DecidableEq, Repr

def pad2 (n : Nat) : String :=
  if n < 10 then "0" ++ toString n else toString n

def pad4 (n : Nat) : String :=
  if n < 10 then "000" ++ toString n
  else if n < 100 then "00" ++ toString n
  else if n < 1000 then "0" ++ toString n
  else toString n

/-- `datetime.utcnow().isoformat(timespec="seconds")`. -/
def isoformatSeconds (t : UTCTime) : String :=
  pad4 t.year ++ "-" ++ pad2 t.month ++ "-" ++ pad2 t.day ++ "T" ++
    pad2 t.hour ++ ":" ++ pad2 t.minute ++ ":" ++ pad2 t.second

/-- `datetime.utcnow().strftime('%Y%m%d_%H%M%S')` (upload name stem). -/
def strftimeYmdHms (t : UTCTime) : String :=
  pad4 t.year ++ pad2 t.month ++ pad2 t.day ++ "_" ++
    pad2 t.hour ++ pad2 t.minute ++ pad2 t.second

/-- `datetime.utcnow().strftime('%Y%m%d')` (CSV filename stem). -/
def strftimeYmd (t : UTCTime) : String :=
  pad4 t.year ++ pad2 t.month ++ pad2 t.day

/-- A Streamlit `UploadedFile`: name, bytes, and browser-reported MIME
type (`getattr(img_file, "type", None)`). -/
structure UploadedFile where
  name : String
  content : String
  type : Option String
deriving DecidableEq, Repr

/-- The whole mutable world the handler touches: the spreadsheet, the
Drive store, and the `st.cache_data` entry for `read_inventory_df`
(snapshot plus its fetch time in seconds). -/
structure World where
  sheet : Spreadsheet
  driveSt : DriveState
  cache : Option (List InvRecord × Nat)
deriving Repr

/-- What the handler surfaces to the user. -/
structure SubmitResult where
  message : String
  ok : Bool
deriving DecidableEq, Repr

/-- app.py lines 216-233: resolve the image fields. A file together with
a configured folder wins; else a non-blank manual URL, trimmed; else both
fields stay empty. An upload exception would propagate to the handler's
`except` arm as an `Except.error`. -/
def resolveImage (d : DriveState) (folderId : String)
    (img_file : Option UploadedFile) (img_url_manual : String)
    (now : UTCTime) : DriveState × Except String (String × String) :=
  match img_file with
  | some f =>
    if folderId = "" then
      if pyStrip img_url_manual ≠ "" then (d, Except.ok (pyStrip img_url_manual, ""))
      else (d, Except.ok ("", ""))
    else
      let unique_name := strftimeYmdHms now ++ "_" ++ f.name
      upload_image_to_drive d f.content unique_name folderId f.type
  | none =>
    if pyStrip img_url_manual ≠ "" then (d, Except.ok (pyStrip img_url_manual, ""))
    else (d, Except.ok ("", ""))

/-- The row dict of app.py lines 235-243. -/
def buildRow (uuidStr : String) (now : UTCTime) (cantidad : Nat)
    (descripcion observacion imagen_url drive_file_id : String) : RowDict :=
  { id := uuidStr.take 8
    timestamp := isoformatSeconds now ++ "Z"
    cantidad := (cantidad : Int)
    descripcion := pyStrip descripcion
    observacion := pyStrip observacion
    imagen_url := imagen_url
    drive_file_id := drive_file_id }

/-- app.py lines 211-248, the `if submitted:` handler: validate the
description (an empty trim halts via `st.stop()` before any side effect),
resolve the image fields, build the row, append it and clear the read
cache; any exception aborts with an error message. `uuidStr` is the
freshly generated `str(uuid.uuid4())`; `now` is the current UTC time. -/
def handleSubmit (w : World) (wsName folderId : String) (cantidad : Nat)
    (descripcion observacion : String) (img_file : Option UploadedFile)
    (img_url_manual uuidStr : String) (now : UTCTime) :
    World × SubmitResult :=
  if pyStrip descripcion = "" then
    (w, { message := "La descripción es obligatoria.", ok := false })
  else
    match resolveImage w.driveSt folderId img_file img_url_manual now with
    | (d2, Except.error e) =>
      ({ w with driveSt := d2 },
       { message := "Ocurrió un error guardando el ítem: " ++ e, ok := false })
    | (d2, Except.ok (imagen_url, drive_file_id)) =>
      let row := buildRow uuidStr now cantidad descripcion observacion
        imagen_url drive_file_id
      ({ sheet := append_row_to_sheet w.sheet wsName row, driveSt := d2,
         cache := none },
       { message := "Ítem guardado correctamente.", ok := true })

/-- The `st.cache_data(ttl=60)` layer over `read_inventory_df`: a cached
snapshot younger than 60 seconds is returned as is; otherwise the sheet
is fetched and the snapshot and its fetch time stored. -/
def read_inventory_cached (w : World) (wsName : String) (t : Nat) :
    World × List InvRecord :=
  match w.cache with
  | some (snap, t0) =>
    if t < t0 + 60 then (w, snap)
    else
      let (sh1, recs) := read_inventory_df w.sheet wsName
      ({ w with sheet := sh1, cache := some (recs, t) }, recs)
  | none =>
    let (sh1, recs) := read_inventory_df w.sheet wsName
    ({ w with sheet := sh1, cache := some (recs, t) }, recs)

/-! CSV export (app.py lines 294-299): `df.to_csv(index=False)` on the
full data frame, UTF-8 encoded, filename from the current UTC date. -/

/-- Minimal quoting as `pandas.to_csv` performs it (QUOTE_MINIMAL). -/
def csvField (s : String) : String :=
  if s.toList.contains ',' ∨ s.toList.contains '"' ∨
      s.toList.contains '\n' ∨ s.toList.contains '\r' then
    "\"" ++ s.replace "\"" "\"\"" ++ "\""
  else s

def csvLine (fs : List String) : String :=
  String.intercalate "," (fs.map csvField) ++ "\n"

/-- The seven cells of one data-frame row, rendered for CSV. -/
def recFields (r : InvRecord) : List String :=
  [r.id, r.timestamp, toString r.cantidad, r.descripcion, r.observacion,
   r.imagen_url, r.drive_file_id]

/-- `df.to_csv(index=False)`: header line, then one line per row. The
data frame of `read_inventory_df` carries all seven columns. -/
def to_csv (recs : List InvRecord) : String :=
  csvLine expectedHeader ++ String.join (recs.map (fun r => csvLine (recFields r)))

/-- The `st.download_button` payload (app.py lines 294-299): the UTF-8
bytes of the CSV text and the file name built from the current UTC date. -/
def csvExport (recs : List InvRecord) (now : UTCTime) :
    String × List UInt8 :=
  ("inventario_" ++ strftimeYmd now ++ ".csv", (to_csv recs).toUTF8.toList)

/-- The first line of a CSV payload (its header row). -/
def firstLine (s : String) : String :=
  String.mk (s.toList.takeWhile (fun c => c ≠ '\n'))

/-! ### Basic lemmas about the spreadsheet state -/

theorem lookupWs_setWs {sh : Spreadsheet} {n : String} {r : List Row}
    (rows : List Row) (h : lookupWs sh n = some r) :
    lookupWs (setWs sh n rows) n = some rows := by
  induction sh with
  | nil => simp [lookupWs] at h
  | cons p t ih =>
    rcases p with ⟨m, rs⟩
    by_cases hm : m = n
    · subst hm
      simp [lookupWs, setWs, List.find?]
    · simp only [lookupWs, setWs, List.map_cons, if_neg hm] at h ⊢
      rw [List.find?_cons_of_neg _ (by simpa using hm)] at h ⊢
      exact ih h

theorem lookupWs_append_self {sh : Spreadsheet} {n : String}
    (rows : List Row) (h : lookupWs sh n = none) :
    lookupWs (sh ++ [(n, rows)]) n = some rows := by
  induction sh with
  | nil => simp [lookupWs, List.find?]
  | cons p t ih =>
    rcases p with ⟨m, rs⟩
    by_cases hm : m = n
    · subst hm
      simp [lookupWs, List.find?] at h
    · simp only [lookupWs, List.cons_append] at h ⊢
      rw [List.find?_cons_of_neg _ (by simpa using hm)] at h ⊢
      exact ih h

theorem wsHeaders_expected (ds : List Row) :
    wsHeaders (expectedHeaderRow :: ds) = expectedHeader := by
  simp only [wsHeaders, List.headD_cons]
  decide

/-- Opening a worksheet whose header already matches is a no-op. -/
theorem open_or_create_id {sh : Spreadsheet} {n : String} {rows : List Row}
    (h : lookupWs sh n = some rows) (hh : wsHeaders rows = expectedHeader) :
    open_or_create_worksheet sh n = sh := by
  simp [open_or_create_worksheet, wsRows, h, hh]

/-- Appending to a well-formed worksheet appends one values row. -/
theorem append_row_wf {sh : Spreadsheet} {n : String} {ds : List Row}
    (row : RowDict) (h : lookupWs sh n = some (expectedHeaderRow :: ds)) :
    append_row_to_sheet sh n row =
      setWs sh n (expectedHeaderRow :: (ds ++ [rowToValues row])) := by
  simp [append_row_to_sheet, open_or_create_id h (wsHeaders_expected ds),
    wsRows, h]

/-- Reading a well-formed worksheet returns its data rows as records. -/
theorem read_inventory_df_wf {sh : Spreadsheet} {n : String} {ds : List Row}
    (h : lookupWs sh n = some (expectedHeaderRow :: ds)) :
    read_inventory_df sh n = (sh, ds.map toRecord) := by
  simp [read_inventory_df, open_or_create_id h (wsHeaders_expected ds),
    wsRows, h]

/-- Reading back one appended values row recovers the row dict, the
`cantidad` integer included. -/
theorem toRecord_rowToValues (row : RowDict) :
    toRecord (rowToValues row) =
      { id := row.id, timestamp := row.timestamp, cantidad := row.cantidad,
        descripcion := row.descripcion, observacion := row.observacion,
        imagen_url := row.imagen_url, drive_file_id := row.drive_file_id } := by
  simp [toRecord, rowToValues, cellAt, cellStr, coerceCantidad, to_numeric,
    astypeInt, Rat.num_intCast, Rat.den_intCast, Int.tdiv_one]

/-! ### Lemmas about image resolution and the submission handler -/

/-- With a file chosen and a folder configured, image resolution is
exactly the Drive upload of app.py lines 222-229. -/
theorem resolveImage_upload (d : DriveState) {folderId : String}
    (f : UploadedFile) (img_url_manual : String) (now : UTCTime)
    (hfold : ¬folderId = "") :
    resolveImage d folderId (some f) img_url_manual now =
      upload_image_to_drive d f.content (strftimeYmdHms now ++ "_" ++ f.name)
        folderId f.type := by
  simp [resolveImage, hfold]

/-- With no file (or no folder configured) and a non-blank manual URL,
image resolution returns the trimmed URL and an empty file id. -/
theorem resolveImage_manual (d : DriveState) {folderId : String}
    {img_file : Option UploadedFile} {img_url_manual : String} (now : UTCTime)
    (hcase : img_file = none ∨ folderId = "")
    (hurl : ¬pyStrip img_url_manual = "") :
    resolveImage d folderId img_file img_url_manual now =
      (d, Except.ok (pyStrip img_url_manual, "")) := by
  rcases hcase with hnone | hfold
  · subst hnone; simp [resolveImage, hurl]
  · subst hfold
    cases img_file <;> simp [resolveImage, hurl]

/-- With no file (or no folder configured) and a blank manual URL, both
image fields stay empty. -/
theorem resolveImage_none (d : DriveState) {folderId : String}
    {img_file : Option UploadedFile} {img_url_manual : String} (now : UTCTime)
    (hcase : img_file = none ∨ folderId = "")
    (hurl : pyStrip img_url_manual = "") :
    resolveImage d folderId img_file img_url_manual now =
      (d, Except.ok ("", "")) := by
  rcases hcase with hnone | hfold
  · subst hnone; simp [resolveImage, hurl]
  · subst hfold
    cases img_file <;> simp [resolveImage, hurl]

/-- A successful image resolution makes the handler append exactly one
row, built from the resolved image fields, and clear the cache. -/
theorem handleSubmit_ok {w : World} {wsName folderId : String}
    {cantidad : Nat} {descripcion : String} (observacion : String)
    {img_file : Option UploadedFile} {img_url_manual : String}
    (uuidStr : String) (now : UTCTime) {ds : List Row}
    {d2 : DriveState} {u fid : String}
    (hdesc : ¬pyStrip descripcion = "")
    (hws : lookupWs w.sheet wsName = some (expectedHeaderRow :: ds))
    (hres : resolveImage w.driveSt folderId img_file img_url_manual now =
      (d2, Except.ok (u, fid))) :
    handleSubmit w wsName folderId cantidad descripcion observacion img_file
        img_url_manual uuidStr now =
      ({ sheet := setWs w.sheet wsName (expectedHeaderRow ::
            (ds ++ [rowToValues (buildRow uuidStr now cantidad descripcion
              observacion u fid)])),
         driveSt := d2, cache := none },
       { message := "Ítem guardado correctamente.", ok := true }) := by
  simp only [handleSubmit, if_neg hdesc, hres]
  rw [append_row_wf _ hws]

/-- A successful upload returns the deterministic public URL and id. -/
theorem upload_ok {folder_id : String} (d : DriveState)
    (file_obj filename : String) (mime_type : Option String)
    (hfold : ¬folder_id = "") :
    (upload_image_to_drive d file_obj filename folder_id mime_type).2 =
      Except.ok ("https://drive.google.com/uc?export=view&id=" ++
        freshFileId d, freshFileId d) := by
  simp [upload_image_to_drive, hfold]

theorem wsRows_setWs {sh : Spreadsheet} {n : String} {r : List Row}
    (rows : List Row) (h : lookupWs sh n = some r) :
    wsRows (setWs sh n rows) n = rows := by
  simp [wsRows, lookupWs_setWs rows h]

theorem lookupWs_single (n : String) (rows : List Row) :
    lookupWs [(n, rows)] n = some rows := by
  simp [lookupWs, List.find?]

theorem setWs_single (n : String) (r rows : List Row) :
    setWs [(n, r)] n rows = [(n, rows)] := by
  simp [setWs]

/-- Image resolution never raises inside the handler (the only raising
path, an unconfigured folder, is guarded off by the `and` in app.py
line 220). -/
theorem resolveImage_isOk (d : DriveState) (folderId : String)
    (img_file : Option UploadedFile) (img_url_manual : String)
    (now : UTCTime) :
    ∃ d2 u fid, resolveImage d folderId img_file img_url_manual now =
      (d2, Except.ok (u, fid)) := by
  cases img_file with
  | none =>
    by_cases hurl : pyStrip img_url_manual = ""
    · exact ⟨d, "", "", resolveImage_none d now (Or.inl rfl) hurl⟩
    · exact ⟨d, pyStrip img_url_manual, "", resolveImage_manual d now (Or.inl rfl) hurl⟩
  | some f =>
    by_cases hfold : folderId = ""
    · by_cases hurl : pyStrip img_url_manual = ""
      · exact ⟨d, "", "", resolveImage_none d now (Or.inr hfold) hurl⟩
      · exact ⟨d, pyStrip img_url_manual, "", resolveImage_manual d now (Or.inr hfold) hurl⟩
    · refine ⟨(upload_image_to_drive d f.content (strftimeYmdHms now ++ "_" ++ f.name) folderId f.type).1,
        "https://drive.google.com/uc?export=view&id=" ++ freshFileId d, freshFileId d, ?_⟩
      rw [resolveImage_upload d f img_url_manual now hfold]
      exact Prod.ext rfl (upload_ok d f.content (strftimeYmdHms now ++ "_" ++ f.name) f.type hfold)

/-! ### Claim theorems -/

/-- C1: a submission whose description is empty or whitespace-only after
trimming is rejected before any side effect: the whole world (sheet,
Drive store, cache) is returned unchanged with the validation error, so
no row is appended and no upload is attempted, whatever the file or
manual URL inputs were. -/
theorem submit_blank_description_rejected_without_side_effects
    (w : World) (wsName folderId : String) (cantidad : Nat)
    (descripcion observacion : String) (img_file : Option UploadedFile)
    (img_url_manual uuidStr : String) (now : UTCTime)
    (h : pyStrip descripcion = "") :
    handleSubmit w wsName folderId cantidad descripcion observacion img_file
        img_url_manual uuidStr now =
      (w, { message := "La descripción es obligatoria.", ok := false }) := by
  simp [handleSubmit, h]

theorem submit_blank_description_rejected_without_side_effects_witness :
    handleSubmit ⟨[("inv", [expectedHeaderRow])], ⟨[], 0⟩, none⟩ "inv"
        "folder9" 3 "   " "note" (some ⟨"p.png", "BYTES", some "image/png"⟩)
        "http://u" "abcd1234-uuid" ⟨2026, 1, 2, 3, 4, 5⟩ =
      (⟨[("inv", [expectedHeaderRow])], ⟨[], 0⟩, none⟩,
       { message := "La descripción es obligatoria.", ok := false }) :=
  submit_blank_description_rejected_without_side_effects _ _ _ _ _ _ _ _ _ _
    (by decide)

/-- C8: calling the upload with an empty folder id fails at the guard
with the configuration error, before sanitization, MIME resolution or
the create call: for every file object, filename and MIME hint the Drive
store is returned untouched with the error. -/
theorem upload_empty_folder_fails_without_creating
    (d : DriveState) (file_obj filename : String)
    (mime_type : Option String) :
    upload_image_to_drive d file_obj filename "" mime_type =
      (d, Except.error "No hay DRIVE_FOLDER_ID configurado en secrets.toml") :=
  rfl

/-- In the file-chosen, folder-configured case the handler appends the
row whose image fields come from the upload of the fresh file id. -/
theorem handleSubmit_file_upload
    (w : World) (wsName : String) {folderId : String} (cantidad : Nat)
    {descripcion : String} (observacion : String) (f : UploadedFile)
    (img_url_manual uuidStr : String) (now : UTCTime) {ds : List Row}
    (hdesc : ¬pyStrip descripcion = "")
    (hws : lookupWs w.sheet wsName = some (expectedHeaderRow :: ds))
    (hfold : ¬folderId = "") :
    wsRows (handleSubmit w wsName folderId cantidad descripcion observacion
        (some f) img_url_manual uuidStr now).1.sheet wsName =
      expectedHeaderRow :: (ds ++ [rowToValues (buildRow uuidStr now
        cantidad descripcion observacion
        ("https://drive.google.com/uc?export=view&id=" ++ freshFileId w.driveSt)
        (freshFileId w.driveSt))]) := by
  have hres : resolveImage w.driveSt folderId (some f) img_url_manual now =
      ((upload_image_to_drive w.driveSt f.content
          (strftimeYmdHms now ++ "_" ++ f.name) folderId f.type).1,
        Except.ok ("https://drive.google.com/uc?export=view&id=" ++
          freshFileId w.driveSt, freshFileId w.driveSt)) := by
    rw [resolveImage_upload w.driveSt f img_url_manual now hfold]
    exact Prod.ext rfl (upload_ok w.driveSt f.content
      (strftimeYmdHms now ++ "_" ++ f.name) f.type hfold)
  rw [handleSubmit_ok observacion uuidStr now hdesc hws hres]
  exact wsRows_setWs _ hws

/-- C2: for a submission with a non-empty description the image fields
of the built row follow the precedence of app.py lines 220-233: a chosen
file with a configured folder uploads and uses the returned URL and file
id; otherwise a non-blank manual URL is used trimmed with an empty file
id; otherwise both fields are empty. -/
theorem submit_image_precedence
    (w : World) (wsName folderId : String) (cantidad : Nat)
    (descripcion observacion : String) (img_file : Option UploadedFile)
    (img_url_manual uuidStr : String) (now : UTCTime) (ds : List Row)
    (hdesc : ¬pyStrip descripcion = "")
    (hws : lookupWs w.sheet wsName = some (expectedHeaderRow :: ds)) :
    (∀ f : UploadedFile, img_file = some f → ¬folderId = "" →
      wsRows (handleSubmit w wsName folderId cantidad descripcion observacion
          img_file img_url_manual uuidStr now).1.sheet wsName =
        expectedHeaderRow :: (ds ++ [rowToValues (buildRow uuidStr now
          cantidad descripcion observacion
          ("https://drive.google.com/uc?export=view&id=" ++ freshFileId w.driveSt)
          (freshFileId w.driveSt))]))
    ∧ ((img_file = none ∨ folderId = "") → ¬pyStrip img_url_manual = "" →
      wsRows (handleSubmit w wsName folderId cantidad descripcion observacion
          img_file img_url_manual uuidStr now).1.sheet wsName =
        expectedHeaderRow :: (ds ++ [rowToValues (buildRow uuidStr now
          cantidad descripcion observacion (pyStrip img_url_manual) "")]))
    ∧ ((img_file = none ∨ folderId = "") → pyStrip img_url_manual = "" →
      wsRows (handleSubmit w wsName folderId cantidad descripcion observacion
          img_file img_url_manual uuidStr now).1.sheet wsName =
        expectedHeaderRow :: (ds ++ [rowToValues (buildRow uuidStr now
          cantidad descripcion observacion "" "")])) := by
  refine ⟨?_, ?_, ?_⟩
  · intro f hf hfold
    subst hf
    exact handleSubmit_file_upload w wsName cantidad observacion f
      img_url_manual uuidStr now hdesc hws hfold
  · intro hcase hurl
    rw [handleSubmit_ok observacion uuidStr now hdesc hws
      (resolveImage_manual w.driveSt now hcase hurl)]
    exact wsRows_setWs _ hws
  · intro hcase hurl
    rw [handleSubmit_ok observacion uuidStr now hdesc hws
      (resolveImage_none w.driveSt now hcase hurl)]
    exact wsRows_setWs _ hws

theorem submit_image_precedence_witness :
    wsRows (handleSubmit ⟨[("inv", [expectedHeaderRow])], ⟨[], 0⟩, none⟩
        "inv" "" 2 "Panel X" "obs" none " http://img " "abcd1234-uuid"
        ⟨2026, 1, 2, 3, 4, 5⟩).1.sheet "inv" =
      expectedHeaderRow :: ([] ++ [rowToValues (buildRow "abcd1234-uuid"
        ⟨2026, 1, 2, 3, 4, 5⟩ 2 "Panel X" "obs"
        (pyStrip " http://img ") "")]) :=
  (submit_image_precedence ⟨[("inv", [expectedHeaderRow])], ⟨[], 0⟩, none⟩
      "inv" "" 2 "Panel X" "obs" none " http://img " "abcd1234-uuid"
      ⟨2026, 1, 2, 3, 4, 5⟩ [] (by decide)
      (lookupWs_single "inv" [expectedHeaderRow])).2.1
    (Or.inl rfl) (by decide)

/-- C7: a successful upload (the folder id is non-empty) returns the
public URL `https://drive.google.com/uc?export=view&id={file_id}` built
from the newly created file's id together with that same id, the created
file being the one the Drive store just assigned its fresh id to; and a
submission with a file chosen and upload configured stores exactly these
two values in the row's image fields. -/
theorem upload_returns_public_url_template
    (d : DriveState) (file_obj filename folder_id : String)
    (mime_type : Option String) (hfold : ¬folder_id = "") :
    ((upload_image_to_drive d file_obj filename folder_id mime_type).2 =
      Except.ok ("https://drive.google.com/uc?export=view&id=" ++
        freshFileId d, freshFileId d))
    ∧ ((upload_image_to_drive d file_obj filename folder_id
          mime_type).1.files.map (fun f => f.id) =
        d.files.map (fun f => f.id) ++ [freshFileId d])
    ∧ (∀ (w : World) (wsName : String) (cantidad : Nat)
        (descripcion observacion : String) (f : UploadedFile)
        (img_url_manual uuidStr : String) (now : UTCTime) (ds : List Row),
        ¬pyStrip descripcion = "" →
        lookupWs w.sheet wsName = some (expectedHeaderRow :: ds) →
        wsRows (handleSubmit w wsName folder_id cantidad descripcion
            observacion (some f) img_url_manual uuidStr now).1.sheet wsName =
          expectedHeaderRow :: (ds ++ [rowToValues (buildRow uuidStr now
            cantidad descripcion observacion
            ("https://drive.google.com/uc?export=view&id=" ++
              freshFileId w.driveSt) (freshFileId w.driveSt))])) := by
  refine ⟨upload_ok d file_obj filename mime_type hfold, ?_, ?_⟩
  · simp only [upload_image_to_drive, if_neg hfold, driveGrantAnyoneReader,
      driveCreate, List.map_map]
    rw [List.map_congr_left (g := fun f => f.id) ?_]
    · simp
    · intro a _
      by_cases ha : a.id = freshFileId d <;> simp [ha]
  · intro w wsName cantidad descripcion observacion f img_url_manual uuidStr
      now ds hdesc hws
    exact handleSubmit_file_upload w wsName cantidad observacion f
      img_url_manual uuidStr now hdesc hws hfold

theorem upload_returns_public_url_template_witness :
    (upload_image_to_drive ⟨[], 0⟩ "BYTES" "20260102_030405_p.png" "folder9"
        (some "image/png")).2 =
      Except.ok ("https://drive.google.com/uc?export=view&id=" ++
        freshFileId ⟨[], 0⟩, freshFileId ⟨[], 0⟩) :=
  (upload_returns_public_url_template ⟨[], 0⟩ "BYTES" "20260102_030405_p.png"
    "folder9" (some "image/png") (by decide)).1

/-- C10: every row a successful submission appends has id equal to the
first 8 characters of the freshly generated UUID string, timestamp equal
to the UTC time in seconds-precision ISO-8601 followed by `Z`, and both
the description and the note stored stripped of surrounding whitespace. -/
theorem submit_row_id_timestamp_trimming
    (w : World) (wsName folderId : String) (cantidad : Nat)
    (descripcion observacion : String) (img_file : Option UploadedFile)
    (img_url_manual uuidStr : String) (now : UTCTime) (ds : List Row)
    (hdesc : ¬pyStrip descripcion = "")
    (hws : lookupWs w.sheet wsName = some (expectedHeaderRow :: ds)) :
    ∃ u fid,
      wsRows (handleSubmit w wsName folderId cantidad descripcion observacion
          img_file img_url_manual uuidStr now).1.sheet wsName =
        expectedHeaderRow :: (ds ++ [rowToValues
          { id := uuidStr.take 8
            timestamp := isoformatSeconds now ++ "Z"
            cantidad := (cantidad : Int)
            descripcion := pyStrip descripcion
            observacion := pyStrip observacion
            imagen_url := u
            drive_file_id := fid }]) := by
  obtain ⟨d2, u, fid, hres⟩ :=
    resolveImage_isOk w.driveSt folderId img_file img_url_manual now
  refine ⟨u, fid, ?_⟩
  rw [handleSubmit_ok observacion uuidStr now hdesc hws hres]
  exact wsRows_setWs _ hws

theorem submit_row_id_timestamp_trimming_witness :
    ∃ u fid,
      wsRows (handleSubmit ⟨[("inv", [expectedHeaderRow])], ⟨[], 0⟩, none⟩
          "inv" "" 2 " Panel X " " note " none "" "abcd1234-uuid"
          ⟨2026, 1, 2, 3, 4, 5⟩).1.sheet "inv" =
        expectedHeaderRow :: ([] ++ [rowToValues
          { id := String.take "abcd1234-uuid" 8
            timestamp := isoformatSeconds ⟨2026, 1, 2, 3, 4, 5⟩ ++ "Z"
            cantidad := ((2 : Nat) : Int)
            descripcion := pyStrip " Panel X "
            observacion := pyStrip " note "
            imagen_url := u
            drive_file_id := fid }]) :=
  submit_row_id_timestamp_trimming
    ⟨[("inv", [expectedHeaderRow])], ⟨[], 0⟩, none⟩ "inv" "" 2 " Panel X "
    " note " none "" "abcd1234-uuid" ⟨2026, 1, 2, 3, 4, 5⟩ [] (by decide)
    (lookupWs_single "inv" [expectedHeaderRow])

/-- Folding appends over a well-formed single-worksheet state appends
the values rows in order. -/
theorem foldl_append_rows (n : String) (rows : List RowDict) (ds : List Row) :
    rows.foldl (fun s r => append_row_to_sheet s n r)
        [(n, expectedHeaderRow :: ds)] =
      [(n, expectedHeaderRow :: (ds ++ rows.map rowToValues))] := by
  induction rows generalizing ds with
  | nil => simp
  | cons r rs ih =>
    rw [List.foldl_cons, append_row_wf r (lookupWs_single n _), setWs_single,
      ih (ds ++ [rowToValues r])]
    simp

/-- C3: appending any sequence of rows to a fresh worksheet and then
reading returns exactly those rows, in append order, each `cantidad`
read back as the integer that was appended. -/
theorem append_then_read_round_trip (wsName : String) (rows : List RowDict) :
    (read_inventory_df
        (rows.foldl (fun s r => append_row_to_sheet s wsName r)
          [(wsName, [expectedHeaderRow])]) wsName).2 =
      rows.map (fun r =>
        { id := r.id, timestamp := r.timestamp, cantidad := r.cantidad,
          descripcion := r.descripcion, observacion := r.observacion,
          imagen_url := r.imagen_url,
          drive_file_id := r.drive_file_id }) := by
  have h0 : [(wsName, [expectedHeaderRow])] =
      [(wsName, expectedHeaderRow :: ([] : List Row))] := rfl
  rw [h0, foldl_append_rows wsName rows []]
  rw [read_inventory_df_wf (lookupWs_single wsName _)]
  simp only [List.nil_append, List.map_map]
  exact List.map_congr_left (fun r _ => toRecord_rowToValues r)

/-- C9: a successful append clears the read cache, so the next read
fetches the sheet and ends with the newly appended row; while any read
that still finds a cache entry younger than 60 seconds returns that
snapshot untouched, however stale it may be. -/
theorem append_clears_cache_and_ttl_read_may_be_stale
    (w : World) (wsName folderId : String) (cantidad : Nat)
    (descripcion observacion : String) (img_file : Option UploadedFile)
    (img_url_manual uuidStr : String) (now : UTCTime) (ds : List Row)
    (hdesc : ¬pyStrip descripcion = "")
    (hws : lookupWs w.sheet wsName = some (expectedHeaderRow :: ds)) :
    ((handleSubmit w wsName folderId cantidad descripcion observacion
        img_file img_url_manual uuidStr now).1.cache = none)
    ∧ (∀ t : Nat, ∃ u fid,
        (read_inventory_cached (handleSubmit w wsName folderId cantidad
            descripcion observacion img_file img_url_manual uuidStr
            now).1 wsName t).2 =
          ds.map toRecord ++ [toRecord (rowToValues (buildRow uuidStr now
            cantidad descripcion observacion u fid))])
    ∧ (∀ (w2 : World) (snap : List InvRecord) (t0 t : Nat),
        w2.cache = some (snap, t0) → t < t0 + 60 →
        read_inventory_cached w2 wsName t = (w2, snap)) := by
  obtain ⟨d2, u, fid, hres⟩ :=
    resolveImage_isOk w.driveSt folderId img_file img_url_manual now
  rw [handleSubmit_ok observacion uuidStr now hdesc hws hres]
  refine ⟨rfl, ?_, ?_⟩
  · intro t
    refine ⟨u, fid, ?_⟩
    have hws2 : lookupWs (setWs w.sheet wsName (expectedHeaderRow ::
        (ds ++ [rowToValues (buildRow uuidStr now cantidad descripcion
          observacion u fid)]))) wsName =
        some (expectedHeaderRow :: (ds ++ [rowToValues (buildRow uuidStr now
          cantidad descripcion observacion u fid)])) :=
      lookupWs_setWs _ hws
    simp [read_inventory_cached, read_inventory_df_wf hws2]
  · intro w2 snap t0 t hc ht
    simp [read_inventory_cached, hc, ht]

theorem append_clears_cache_and_ttl_read_may_be_stale_witness :
    ((handleSubmit ⟨[("inv", [expectedHeaderRow])], ⟨[], 0⟩, none⟩ "inv" ""
        2 "Panel X" "" none "" "abcd1234-uuid"
        ⟨2026, 1, 2, 3, 4, 5⟩).1.cache = none)
    ∧ read_inventory_cached
        ⟨[("inv", [expectedHeaderRow])], ⟨[], 0⟩, some ([], 5)⟩ "inv" 30 =
      (⟨[("inv", [expectedHeaderRow])], ⟨[], 0⟩, some ([], 5)⟩, []) :=
  ⟨(append_clears_cache_and_ttl_read_may_be_stale
      ⟨[("inv", [expectedHeaderRow])], ⟨[], 0⟩, none⟩ "inv" "" 2 "Panel X"
      "" none "" "abcd1234-uuid" ⟨2026, 1, 2, 3, 4, 5⟩ [] (by decide)
      (lookupWs_single "inv" [expectedHeaderRow])).1,
   (append_clears_cache_and_ttl_read_may_be_stale
      ⟨[("inv", [expectedHeaderRow])], ⟨[], 0⟩, none⟩ "inv" "" 2 "Panel X"
      "" none "" "abcd1234-uuid" ⟨2026, 1, 2, 3, 4, 5⟩ [] (by decide)
      (lookupWs_single "inv" [expectedHeaderRow])).2.2
     ⟨[("inv", [expectedHeaderRow])], ⟨[], 0⟩, some ([], 5)⟩ [] 5 30 rfl
     (by decide)⟩

/-- C4 counterexample: the stored value `-5` is parseable, and the read
coercion returns it as the negative integer `-5`, so the read does not
coerce every stored `cantidad` to a non-negative integer. -/
theorem cantidad_read_negative_counterexample :
    coerceCantidad (Cell.num (-5)) = -5 ∧
      ¬(0 ≤ coerceCantidad (Cell.num (-5))) := by
  constructor
  · rfl
  · decide

/-- C4 amended: the read coerces every stored `cantidad` cell to an
integer: an unparseable value becomes 0, a parseable integral value is
returned as that integer, and the result is non-negative whenever the
parsed value is non-negative (a stored negative value reads back
negative). -/
theorem cantidad_read_coercion (c : Cell) :
    (to_numeric c = none → coerceCantidad c = 0)
    ∧ (∀ n : Int, to_numeric c = some (n : ℚ) → coerceCantidad c = n)
    ∧ (∀ q : ℚ, to_numeric c = some q → 0 ≤ q → 0 ≤ coerceCantidad c) := by
  refine ⟨?_, ?_, ?_⟩
  · intro h
    simp [coerceCantidad, h, astypeInt]
  · intro n h
    simp [coerceCantidad, h, astypeInt, Rat.num_intCast, Rat.den_intCast,
      Int.tdiv_one]
  · intro q h hq
    simp only [coerceCantidad, h, Option.getD_some, astypeInt]
    exact Int.tdiv_nonneg (Rat.num_nonneg.mpr hq) (Int.natCast_nonneg _)

theorem cantidad_read_coercion_witness :
    coerceCantidad (Cell.str "7") = 7 ∧ coerceCantidad (Cell.str "abc") = 0 :=
  ⟨(cantidad_read_coercion (Cell.str "7")).2.1 7 (by decide),
   (cantidad_read_coercion (Cell.str "abc")).1 (by decide)⟩

theorem takeWhile_until_newline (l1 l2 : List Char)
    (h1 : l1.all (fun c => c ≠ '\n')) :
    (l1 ++ '\n' :: l2).takeWhile (fun c => c ≠ '\n') = l1 := by
  induction l1 with
  | nil => simp [List.takeWhile]
  | cons c cs ih =>
    simp only [List.all_cons, Bool.and_eq_true] at h1
    simp only [List.cons_append, List.takeWhile_cons, h1.1, if_pos]
    rw [ih h1.2]

theorem firstLine_append_line (s rest : String)
    (hs : s.toList.all (fun c => c ≠ '\n')) :
    firstLine (s ++ "\n" ++ rest) = s := by
  unfold firstLine
  have hl : (s ++ "\n" ++ rest).toList = s.toList ++ '\n' :: rest.toList := by
    show (s ++ "\n" ++ rest).data = s.data ++ '\n' :: rest.data
    rw [String.data_append, String.data_append, List.append_assoc]
    rfl
  rw [hl, takeWhile_until_newline _ _ hs]
  rfl

/-- C5 counterexample: the exported CSV header row is not the displayed
six-column subset; on a one-row table the header line carries the
seventh column `drive_file_id` as well (the code exports the full data
frame, not the displayed subset). -/
theorem csv_header_not_displayed_subset_counterexample :
    firstLine (to_csv
        [⟨"a1b2c3d4", "2026-01-02T03:04:05Z", 5, "Panel X", "", "", ""⟩]) ≠
      "id,timestamp,cantidad,descripcion,observacion,imagen_url" := by
  decide

/-- C5 amended: the CSV export is the UTF-8 encoding of the
comma-separated text whose header row is the full seven-column schema
`id,timestamp,cantidad,descripcion,observacion,imagen_url,drive_file_id`
(the displayed subset plus `drive_file_id`), and its filename is
`inventario_YYYYMMDD.csv` built from the current UTC date. -/
theorem csv_export_format (recs : List InvRecord) (now : UTCTime) :
    (csvExport recs now).1 = "inventario_" ++ strftimeYmd now ++ ".csv"
    ∧ (csvExport recs now).2 = (to_csv recs).toUTF8.toList
    ∧ firstLine (to_csv recs) =
        "id,timestamp,cantidad,descripcion,observacion,imagen_url,drive_file_id" := by
  refine ⟨rfl, rfl, ?_⟩
  have hto : to_csv recs =
      "id,timestamp,cantidad,descripcion,observacion,imagen_url,drive_file_id"
        ++ "\n" ++ String.join (recs.map (fun r => csvLine (recFields r))) := by
    show csvLine expectedHeader ++ _ = _
    rw [show csvLine expectedHeader =
      "id,timestamp,cantidad,descripcion,observacion,imagen_url,drive_file_id"
        ++ "\n" from rfl]
  rw [hto]
  exact firstLine_append_line _ _ (by decide)

/-- C6 counterexample: on a worksheet whose header row is the seven
expected cells followed by an extra cell, the open operation's
`update("A1:G1", ...)` cannot clear the eighth column, so the header
still differs from the expected row after the call — the header
invariant does not hold after every call. -/
theorem header_repair_counterexample :
    wsHeaders (wsRows (open_or_create_worksheet
        [("inv", [expectedHeaderRow ++ [Cell.str "extra"]])] "inv") "inv") ≠
      expectedHeader := by
  decide

/-- C6 amended: the worksheet-open operation is idempotent when the
header already matches (the whole spreadsheet is unchanged, so no second
worksheet is created); a missing worksheet is created with exactly the
expected header; a mismatched header has its cells A1:G1 rewritten to
exactly the expected seven values; and the header invariant holds after
the call whenever the pre-existing header row had no cells beyond the
seventh column (a wider malformed header keeps its extra trailing
cells). -/
theorem open_or_create_header_repair (sh : Spreadsheet) (n : String) :
    (∀ rows, lookupWs sh n = some rows → wsHeaders rows = expectedHeader →
      open_or_create_worksheet sh n = sh ∧
        open_or_create_worksheet (open_or_create_worksheet sh n) n = sh)
    ∧ (lookupWs sh n = none →
      wsRows (open_or_create_worksheet sh n) n = [expectedHeaderRow])
    ∧ (∀ rows, lookupWs sh n = some rows →
      ¬wsHeaders rows = expectedHeader →
      wsRows (open_or_create_worksheet sh n) n = updateA1G1 rows)
    ∧ (∀ rows, lookupWs sh n = some rows → (rows.headD []).length ≤ 7 →
      wsHeaders (wsRows (open_or_create_worksheet sh n) n) =
        expectedHeader) := by
  refine ⟨?_, ?_, ?_, ?_⟩
  · intro rows h hh
    have h1 := open_or_create_id h hh
    exact ⟨h1, by rw [h1]; exact h1⟩
  · intro h
    have hl := lookupWs_append_self ([] ++ [expectedHeaderRow]) h
    simp only [List.nil_append] at hl
    simp [open_or_create_worksheet, h, wsRows, hl, wsHeaders_expected []]
  · intro rows h hneq
    simp only [open_or_create_worksheet, h, wsRows, Option.getD_some,
      if_neg hneq]
    exact wsRows_setWs _ h
  · intro rows h hlen
    by_cases hh : wsHeaders rows = expectedHeader
    · rw [open_or_create_id h hh]
      simp [wsRows, h, hh]
    · have hrep : wsRows (open_or_create_worksheet sh n) n =
          updateA1G1 rows := by
        simp only [open_or_create_worksheet, h, wsRows, Option.getD_some,
          if_neg hh]
        exact wsRows_setWs _ h
      rw [hrep]
      cases rows with
      | nil => exact wsHeaders_expected []
      | cons r rest =>
        simp only [List.headD_cons] at hlen
        simp only [updateA1G1, List.drop_eq_nil_of_le hlen,
          List.append_nil]
        exact wsHeaders_expected rest

theorem open_or_create_header_repair_witness :
    open_or_create_worksheet [("inv", [expectedHeaderRow])] "inv" =
      [("inv", [expectedHeaderRow])]
    ∧ wsHeaders (wsRows (open_or_create_worksheet
        [("inv", [[Cell.str "bad"]])] "inv") "inv") = expectedHeader :=
  ⟨((open_or_create_header_repair [("inv", [expectedHeaderRow])] "inv").1
      [expectedHeaderRow] (lookupWs_single "inv" [expectedHeaderRow])
      (wsHeaders_expected [])).1,
   (open_or_create_header_repair [("inv", [[Cell.str "bad"]])] "inv").2.2.2
     [[Cell.str "bad"]] (lookupWs_single "inv" [[Cell.str "bad"]])
     (by decide)⟩

end Inventario
